import Mathlib

/-!
Verification of the core of db-pool-rs, a multi-backend database
connection-pool manager written in Rust. The definitions below are a
shallow embedding of the source (src/core/config.rs, src/core/error.rs,
src/core/types.rs, src/core/pool_manager.rs, src/databases/mssql/pool.rs,
src/databases/mssql/connection.rs, src/utils/monitoring.rs). External
effects (the tiberius driver, tokio timers and semaphores, wall-clock
instants) are passed in as explicit oracles; machine integers (u32, u64)
are modelled as Nat (the operations involved only add small increments,
far from wrap-around); Duration is modelled as Nat milliseconds; f64
rates and thresholds are modelled as exact rationals.
-/

namespace DbPool

instance {ε α : Type} [DecidableEq ε] [DecidableEq α] : DecidableEq (Except ε α) := fun a b =>
  match a, b with
  | .ok x, .ok y => decidable_of_iff (x = y) (by simp)
  | .ok _, .error _ => isFalse (by simp)
  | .error _, .ok _ => isFalse (by simp)
  | .error e, .error f => decidable_of_iff (e = f) (by simp)

/-- Error taxonomy, from src/core/error.rs (enum ConnectionError). -/
inductive ConnectionError where
  | poolExhausted
  | acquireTimeout
  | connectionFailed (msg : String)
  | connectionClosed
  | healthCheckFailed
deriving DecidableEq, Repr

/-- Error taxonomy, from src/core/error.rs (enum QueryError). -/
inductive QueryError where
  | syntaxError (msg : String)
  | executionFailed (msg : String)
  | timeout
  | parameterBinding (msg : String)
  | resultProcessing (msg : String)
deriving DecidableEq, Repr

/-- Error taxonomy, from src/core/error.rs (enum ConfigError). -/
inductive ConfigError where
  | parseError (msg : String)
  | validationFailed (msg : String)
  | missingRequired (msg : String)
  | invalidValue (msg : String)
deriving DecidableEq, Repr

/-- Top-level error, from src/core/error.rs (enum DbPoolError); the
DataConversion / Monitoring / Runtime payloads are strings as in the
source. -/
inductive DbPoolError where
  | connection (e : ConnectionError)
  | query (e : QueryError)
  | config (e : ConfigError)
  | dataConversion (msg : String)
  | monitoring (msg : String)
  | runtime (msg : String)
deriving DecidableEq, Repr

/-- Backend kinds, from src/core/types.rs (enum DatabaseType). -/
inductive DatabaseType where
  | MSSQL
  | PostgreSQL
  | Redis
  | SQLite
  | InfluxDB
deriving DecidableEq, Repr

/-- Pool sizing block, from src/core/types.rs (struct PoolConfig).
u32 counters as Nat, Durations as Nat milliseconds; the two f32
thresholds are rationals. -/
structure PoolConfig where
  min_connections : Nat
  max_connections : Nat
  acquire_timeout : Nat
  idle_timeout : Nat
  max_lifetime : Nat
  auto_scaling : Bool
  scale_up_threshold : ℚ
  scale_down_threshold : ℚ
  health_check_interval : Nat
deriving DecidableEq, Repr

/-- src/core/types.rs, enum SslMode. -/
inductive SslMode where
  | disable
  | require
  | prefer
deriving DecidableEq, Repr

/-- src/core/types.rs, struct SslConfig. -/
structure SslConfig where
  ssl_mode : SslMode
  trust_server_certificate : Bool
  certificate_path : Option String
  key_path : Option String
deriving DecidableEq, Repr

/-- src/core/types.rs, struct TimeoutConfig (Durations as Nat ms). -/
structure TimeoutConfig where
  query_timeout : Nat
  connection_timeout : Nat
  command_timeout : Nat
deriving DecidableEq, Repr

/-- src/core/types.rs, struct DatabaseConfig. -/
structure DatabaseConfig where
  db_type : DatabaseType
  host : String
  port : Nat
  database : String
  username : String
  password : String
  pool_config : PoolConfig
  ssl_config : Option SslConfig
  timeout_config : TimeoutConfig
  application_name : Option String
deriving DecidableEq, Repr

/-- ConfigManager::validate_config, src/core/config.rs lines 149-171:
five checks, in source order, rejecting at the first violation. -/
def validate_config (config : DatabaseConfig) : Except ConfigError Unit :=
  if config.host = "" then
    .error (.validationFailed "主机地址不能为空")
  else if config.port = 0 ∧ config.db_type ≠ DatabaseType.SQLite then
    .error (.validationFailed "端口号无效")
  else if config.database = "" ∧ config.db_type ≠ DatabaseType.Redis then
    .error (.validationFailed "数据库名称不能为空")
  else if config.pool_config.min_connections > config.pool_config.max_connections then
    .error (.validationFailed "最小连接数不能大于最大连接数")
  else if config.pool_config.max_connections = 0 then
    .error (.validationFailed "最大连接数必须大于0")
  else
    .ok ()

/-- Whether a backend is file-backed (the spec means SQLite, the one
backend whose default port is 0 and whose host is a file path). -/
def fileBacked (t : DatabaseType) : Bool := t = DatabaseType.SQLite

/-- Whether a backend is key-value (the spec means Redis). -/
def keyValue (t : DatabaseType) : Bool := t = DatabaseType.Redis

/-- Modelled from the spec wording of the validation invariants (spec
section 3), for comparison with validate_config: 1 ≤ min ≤ max, max > 0,
host non-empty unless file-backed, database non-empty except key-value,
port > 0 unless file-backed. -/
def specAcceptsConfig (c : DatabaseConfig) : Prop :=
  1 ≤ c.pool_config.min_connections ∧
  c.pool_config.min_connections ≤ c.pool_config.max_connections ∧
  0 < c.pool_config.max_connections ∧
  (c.host ≠ "" ∨ fileBacked c.db_type) ∧
  (c.database ≠ "" ∨ keyValue c.db_type) ∧
  (0 < c.port ∨ fileBacked c.db_type)

instance (c : DatabaseConfig) : Decidable (specAcceptsConfig c) := by
  unfold specAcceptsConfig; infer_instance

/-- A default pool sizing block (src/core/types.rs, impl Default for
PoolConfig). -/
def PoolConfig.default : PoolConfig :=
  { min_connections := 5
    max_connections := 50
    acquire_timeout := 30000
    idle_timeout := 600000
    max_lifetime := 3600000
    auto_scaling := true
    scale_up_threshold := 8/10
    scale_down_threshold := 3/10
    health_check_interval := 60000 }

/-- Default timeouts (src/core/types.rs, impl Default for TimeoutConfig). -/
def TimeoutConfig.default : TimeoutConfig :=
  { query_timeout := 30000, connection_timeout := 10000, command_timeout := 30000 }

/-- A well-formed MSSQL configuration except that min_connections = 0. -/
def cfgMinZero : DatabaseConfig :=
  { db_type := DatabaseType.MSSQL
    host := "localhost"
    port := 1433
    database := "app"
    username := "u"
    password := "x"
    pool_config := { PoolConfig.default with min_connections := 0, max_connections := 5 }
    ssl_config := none
    timeout_config := TimeoutConfig.default
    application_name := none }

/-- A SQLite (file-backed) configuration with an empty host, which the
spec invariants accept but the source rejects. -/
def cfgSqliteNoHost : DatabaseConfig :=
  { db_type := DatabaseType.SQLite
    host := ""
    port := 0
    database := "file.db"
    username := "u"
    password := ""
    pool_config := { PoolConfig.default with min_connections := 1, max_connections := 5 }
    ssl_config := none
    timeout_config := TimeoutConfig.default
    application_name := none }

/-! ## Association-list model of DashMap

The manager keeps its registries in DashMap. Only lookup, insert and
remove of whole entries are used by the embedded code, so a DashMap is
modelled as an association list with the three operations below. -/

/-- DashMap::get on a key. -/
def dmGet {β : Type} (m : List (String × β)) (k : String) : Option β :=
  match m with
  | [] => none
  | (k', v) :: rest => if k' = k then some v else dmGet rest k

/-- DashMap::remove of a key (drops every entry with that key). -/
def dmRemove {β : Type} : List (String × β) → String → List (String × β)
  | [], _ => []
  | p :: rest, k => if p.1 = k then dmRemove rest k else p :: dmRemove rest k

/-- DashMap::insert of a key (replaces any previous entry). -/
def dmInsert {β : Type} (m : List (String × β)) (k : String) (v : β) : List (String × β) :=
  (k, v) :: dmRemove m k

/-- The key set of the pool registry: membership of an id. -/
def idsContains (l : List String) (k : String) : Bool :=
  match l with
  | [] => false
  | x :: rest => if x = k then true else idsContains rest k

/-- Registering an id (DashMap::insert seen on the key set). -/
def idsInsert (l : List String) (k : String) : List String :=
  if idsContains l k then l else k :: l

/-- Deregistering an id (DashMap::remove seen on the key set). -/
def idsRemove : List String → String → List String
  | [], _ => []
  | x :: rest, k => if x = k then idsRemove rest k else x :: idsRemove rest k

/-! ## Failover strategy and manager state -/

/-- src/core/types.rs, enum LoadBalanceAlgorithm. -/
inductive LoadBalanceAlgorithm where
  | roundRobin
  | leastConnections
  | weightedRoundRobin
  | random
deriving DecidableEq, Repr

/-- src/core/types.rs, enum FailoverStrategy (switch_threshold as Nat ms). -/
inductive FailoverStrategy where
  | localOnly
  | activeStandby (primary : String) (backup : String) (switch_threshold : Nat)
  | loadBalanced (pools : List String) (algorithm : LoadBalanceAlgorithm)
deriving DecidableEq, Repr

/-- Per-pool counters of the manager metrics collector
(src/core/pool_manager.rs, struct PoolMetricsData). The two Instant
fields (created_at, last_query_time) are wall-clock values irrelevant to
the counter claims and are not modelled; execution time is Nat ms. -/
structure PoolMetricsData where
  total_queries : Nat
  total_errors : Nat
  total_execution_time : Nat
deriving DecidableEq, Repr

/-- State of DistributedPoolManager (src/core/pool_manager.rs): the pool
registry is modelled by its key set (the pool objects themselves live in
MSSQLPoolState below), plus the config registry, the health monitor map
and the metrics collector map. -/
structure ManagerState where
  local_pools : List String
  pool_configs : List (String × DatabaseConfig)
  health : List (String × Bool)
  metrics : List (String × PoolMetricsData)
  strategy : FailoverStrategy
deriving DecidableEq, Repr

/-- HealthMonitor::is_pool_healthy: map lookup, absent means unhealthy
(`unwrap_or(false)`). -/
def isPoolHealthy (s : ManagerState) (pool_id : String) : Bool :=
  (dmGet s.health pool_id).getD false

/-- The load-balanced scan of get_pool_with_fallback: first registered
and healthy member of the list, else the all-unavailable error. -/
def firstHealthy (s : ManagerState) : List String → Except DbPoolError String
  | [] => .error (.runtime "所有连接池都不可用")
  | p :: rest =>
      if idsContains s.local_pools p ∧ isPoolHealthy s p then .ok p
      else firstHealthy s rest

/-- DistributedPoolManager::get_pool_with_fallback
(src/core/pool_manager.rs lines 185-221). Returns the id of the pool the
dispatch is routed to. Note the ActiveStandby arm of the source binds
only `backup` (`ActiveStandby { backup, .. }`): the primary id and the
requested id are not compared, and the backup health is not consulted. -/
def getPoolWithFallback (s : ManagerState) (pool_id : String) : Except DbPoolError String :=
  if idsContains s.local_pools pool_id ∧ isPoolHealthy s pool_id then
    .ok pool_id
  else
    match s.strategy with
    | .localOnly =>
        .error (.runtime ("连接池不可用: " ++ pool_id))
    | .activeStandby _primary backup _threshold =>
        if idsContains s.local_pools backup then .ok backup
        else .error (.runtime ("备用连接池不存在: " ++ backup))
    | .loadBalanced pools _algorithm =>
        firstHealthy s pools

/-! ## Metrics collector (src/core/pool_manager.rs, MetricsCollector) -/

/-- MetricsCollector::record_pool_created: insert a zeroed entry. -/
def recordPoolCreated (m : List (String × PoolMetricsData)) (pool_id : String) :
    List (String × PoolMetricsData) :=
  dmInsert m pool_id { total_queries := 0, total_errors := 0, total_execution_time := 0 }

/-- MetricsCollector::record_query_success: update the entry if present
(`if let Some(mut metrics) = get_mut`), no-op otherwise. -/
def recordQuerySuccess (m : List (String × PoolMetricsData)) (pool_id : String)
    (execution_time : Nat) : List (String × PoolMetricsData) :=
  match dmGet m pool_id with
  | none => m
  | some d =>
      dmInsert m pool_id
        { d with
          total_queries := d.total_queries + 1
          total_execution_time := d.total_execution_time + execution_time }

/-- MetricsCollector::record_query_error: update the entry if present,
incrementing both counters, no-op otherwise (the error argument is
unused in the source: `_error`). -/
def recordQueryError (m : List (String × PoolMetricsData)) (pool_id : String)
    (execution_time : Nat) (_error : DbPoolError) : List (String × PoolMetricsData) :=
  match dmGet m pool_id with
  | none => m
  | some d =>
      dmInsert m pool_id
        { d with
          total_queries := d.total_queries + 1
          total_errors := d.total_errors + 1
          total_execution_time := d.total_execution_time + execution_time }

/-- The error_rate derivation of MetricsCollector::get_pool_metrics:
total_errors / total_queries, 0 when total_queries = 0. The source
divides f64 values; modelled as the exact rational. -/
def errorRateOf (d : PoolMetricsData) : ℚ :=
  if 0 < d.total_queries then (d.total_errors : ℚ) / (d.total_queries : ℚ) else 0

/-! ## Manager operations -/

/-- DistributedPoolManager::create_pool (src/core/pool_manager.rs lines
44-63). `factory` is the outcome of DatabaseFactory::create_pool; the
spawned probe task of start_monitoring has no body in the source and is
not modelled. -/
def createPool (s : ManagerState) (pool_id : String) (config : DatabaseConfig)
    (factory : Except DbPoolError Unit) : Except DbPoolError Unit × ManagerState :=
  match validate_config config with
  | .error e => (.error (.config e), s)
  | .ok () =>
    match factory with
    | .error e => (.error e, s)
    | .ok () =>
        (.ok (),
         { s with
           pool_configs := dmInsert s.pool_configs pool_id config
           local_pools := idsInsert s.local_pools pool_id
           health := dmInsert s.health pool_id true
           metrics := recordPoolCreated s.metrics pool_id })

/-- DistributedPoolManager::remove_pool (lines 66-84): stop_monitoring
first (always Ok, removes the health entry), then the pool entry (error
if absent), then the config entry, then pool.close() (`close` outcome is
the oracle; its error propagates before record_pool_removed). -/
def removePool (s : ManagerState) (pool_id : String)
    (close : Except DbPoolError Unit) : Except DbPoolError Unit × ManagerState :=
  let s1 := { s with health := dmRemove s.health pool_id }
  if idsContains s1.local_pools pool_id then
    let s2 := { s1 with
                local_pools := idsRemove s1.local_pools pool_id
                pool_configs := dmRemove s1.pool_configs pool_id }
    match close with
    | .error e => (.error e, s2)
    | .ok () => (.ok (), { s2 with metrics := dmRemove s2.metrics pool_id })
  else
    (.error (.runtime ("连接池不存在: " ++ pool_id)), s1)

/-- DistributedPoolManager::recreate_pool (lines 252-269): remove and
close the old pool (close result ignored), then the factory; on factory
failure the error propagates with the pool entry already gone and the
config entry untouched. -/
def recreatePool (s : ManagerState) (pool_id : String) (_config : DatabaseConfig)
    (factory : Except DbPoolError Unit) : Except DbPoolError Unit × ManagerState :=
  let s1 := { s with local_pools := idsRemove s.local_pools pool_id }
  match factory with
  | .error e => (.error e, s1)
  | .ok () =>
      (.ok (),
       { s1 with
         local_pools := idsInsert s1.local_pools pool_id
         health := dmInsert s1.health pool_id true })

/-- DistributedPoolManager::handle_query_failure (lines 224-249):
connection-class errors mark the pool unhealthy and recreate it from the
stored config (when one is stored); query-class errors are recorded
again into the metrics with Duration::ZERO; other classes only log. -/
def handleQueryFailure (s : ManagerState) (pool_id : String) (error : DbPoolError)
    (factory : Except DbPoolError Unit) : Except DbPoolError Unit × ManagerState :=
  match error with
  | .connection _ =>
      let s1 := { s with health := dmInsert s.health pool_id false }
      match dmGet s1.pool_configs pool_id with
      | some config => recreatePool s1 pool_id config factory
      | none => (.ok (), s1)
  | .query _ =>
      (.ok (), { s with metrics := recordQueryError s.metrics pool_id 0 error })
  | _ => (.ok (), s)

/-- DistributedPoolManager::execute_query (lines 87-115), metrics and
registry effects. `outcome` is the result of the routed
pool.execute_query call, `elapsed` the measured Nat-ms duration,
`factory` the oracle for a recreate attempt. On failure the error is
recorded, handle_query_failure runs (its `?` can replace the returned
error), and the original error is otherwise propagated. -/
def managerExecuteQuery (s : ManagerState) (pool_id : String)
    (outcome : Except DbPoolError Unit) (elapsed : Nat)
    (factory : Except DbPoolError Unit) : Except DbPoolError Unit × ManagerState :=
  match getPoolWithFallback s pool_id with
  | .error e => (.error e, s)
  | .ok _target =>
    match outcome with
    | .ok () =>
        (.ok (), { s with metrics := recordQuerySuccess s.metrics pool_id elapsed })
    | .error e =>
        let s1 := { s with metrics := recordQueryError s.metrics pool_id elapsed e }
        match handleQueryFailure s1 pool_id e factory with
        | (.error e2, s2) => (.error e2, s2)
        | (.ok (), s2) => (.error e, s2)

/-- A sequence of dispatches against one pool id: fold of
managerExecuteQuery over (outcome, elapsed) pairs, recreate oracle Ok. -/
def runQueries (s : ManagerState) (pool_id : String)
    (queries : List (Except DbPoolError Unit × Nat)) : ManagerState :=
  queries.foldl (fun st q => (managerExecuteQuery st pool_id q.1 q.2 (.ok ())).2) s

/-- Registration consistency (spec section 4.3): every id has a pool
entry exactly when it has a config entry. -/
def Consistent (s : ManagerState) : Prop :=
  ∀ id : String, idsContains s.local_pools id = true ↔ (dmGet s.pool_configs id).isSome = true

/-- The empty manager (DistributedPoolManager::new: empty maps, LocalOnly). -/
def ManagerState.empty : ManagerState :=
  { local_pools := []
    pool_configs := []
    health := []
    metrics := []
    strategy := FailoverStrategy.localOnly }

/-! ## MSSQL pool (src/databases/mssql/pool.rs)

A session (MSSQLConnection inside the pool) is abstracted to an id plus
the outcome its next `is_valid` probe would report; the tiberius driver
behind it is external. The counting semaphore of the source is acquired
at the top of get_connection and — because the permit binding `_permit`
is dropped when the function returns — released again before the caller
ever uses the session, so at any quiescent instant all permits are free;
the model therefore enters get_connection with the permit granted, and
the acquire-timeout path is not modelled. -/

/-- A pooled session: the probe oracle `valid` is what is_valid returns. -/
structure MConn where
  connId : Nat
  valid : Bool
deriving DecidableEq, Repr

/-- Mutable state of MSSQLPool: the idle VecDeque (head = front) and the
total_connections counter. -/
structure MSSQLPoolState where
  idle : List MConn
  total : Nat
deriving DecidableEq, Repr

/-- The create-a-new-session tail of MSSQLPool::get_connection (lines
160-175): if total_connections < max_connections open a session via the
`create` oracle and increment the counter, else PoolExhausted. -/
def getConnectionCreate (max_connections : Nat) (s : MSSQLPoolState)
    (create : Except ConnectionError MConn) :
    Except ConnectionError MConn × MSSQLPoolState :=
  if s.total < max_connections then
    match create with
    | .ok c => (.ok c, { s with total := s.total + 1 })
    | .error e => (.error e, s)
  else
    (.error .poolExhausted, s)

/-- MSSQLPool::get_connection (lines 140-176): pop the front of the idle
queue once; a valid session is handed out; an invalid one is dropped
(total_connections is not decremented and the queue is not scanned
further) and control falls through to the create branch. -/
def getConnection (max_connections : Nat) (s : MSSQLPoolState)
    (create : Except ConnectionError MConn) :
    Except ConnectionError MConn × MSSQLPoolState :=
  match s.idle with
  | [] => getConnectionCreate max_connections s create
  | c :: rest =>
      if c.valid then (.ok c, { s with idle := rest })
      else getConnectionCreate max_connections { s with idle := rest } create

/-- MSSQLPool::return_connection (lines 179-190): a valid session goes to
the tail of the idle queue; an invalid one is dropped and
total_connections decremented (guarded against underflow). -/
def returnConnection (s : MSSQLPoolState) (c : MConn) : MSSQLPoolState :=
  if c.valid then { s with idle := s.idle ++ [c] }
  else if 0 < s.total then { s with total := s.total - 1 }
  else s

/-- MSSQLPool::validate_config (lines 43-57). -/
def mssql_validate_config (config : DatabaseConfig) : Except DbPoolError Unit :=
  if config.db_type ≠ DatabaseType.MSSQL then .error (.runtime "配置类型不是MSSQL")
  else if config.host = "" then .error (.runtime "MSSQL主机地址不能为空")
  else if config.username = "" then .error (.runtime "MSSQL用户名不能为空")
  else .ok ()

/-- The loop of MSSQLPool::ensure_min_connections: open `needed` sessions
through the indexed `create` oracle, pushing each to the idle queue and
incrementing total_connections; the `?` on create_connection aborts the
whole loop at the first failure. -/
def topUp (create : Nat → Except ConnectionError MConn) :
    Nat → Nat → MSSQLPoolState → Except DbPoolError MSSQLPoolState
  | _, 0, s => .ok s
  | k, needed + 1, s =>
      match create k with
      | .ok c => topUp create (k + 1) needed { idle := s.idle ++ [c], total := s.total + 1 }
      | .error e => .error (.connection e)

/-- MSSQLPool::ensure_min_connections (lines 60-83). -/
def ensureMinConnections (config : DatabaseConfig)
    (create : Nat → Except ConnectionError MConn) (s : MSSQLPoolState) :
    Except DbPoolError MSSQLPoolState :=
  let current := s.idle.length
  if current < config.pool_config.min_connections then
    topUp create 0 (config.pool_config.min_connections - current) s
  else
    .ok s

/-- MSSQLPool::new (lines 25-40): validate, start empty, then
`pool.ensure_min_connections().await?` — the `?` makes a failed top-up
abort construction. -/
def mssqlNew (config : DatabaseConfig)
    (create : Nat → Except ConnectionError MConn) : Except DbPoolError MSSQLPoolState :=
  match mssql_validate_config config with
  | .error e => .error e
  | .ok () => ensureMinConnections config create { idle := [], total := 0 }

/-- Whether an Except is the success case. -/
def exOk {ε α : Type} : Except ε α → Bool
  | .ok _ => true
  | .error _ => false

/-! ## MSSQL connection transaction state (src/databases/mssql/connection.rs)

The tiberius client is abstracted to whether it is still present
(`client: Option<Client>`, modelled by clientOpen) plus per-call server
oracles: each transaction-control operation issues one simple_query whose
driver outcome is `Except String Unit` (the source maps any driver error
e to QueryError::ExecutionFailed(e.to_string())). -/

/-- MSSQLConnection transaction-relevant state. -/
structure ConnState where
  clientOpen : Bool
  in_transaction : Bool
deriving DecidableEq, Repr

/-- MSSQLConnection::begin_transaction (lines 96-110): refuse when
already in a transaction, refuse when the client is gone, otherwise run
BEGIN TRANSACTION on the server and set in_transaction. -/
def beginTransaction (s : ConnState) (server : Except String Unit) :
    Except DbPoolError Unit × ConnState :=
  if s.in_transaction then
    (.error (.query (.executionFailed "已在事务中")), s)
  else if s.clientOpen = false then
    (.error (.query (.executionFailed "Connection closed")), s)
  else
    match server with
    | .ok () => (.ok (), { s with in_transaction := true })
    | .error msg => (.error (.query (.executionFailed msg)), s)

/-- MSSQLConnection::commit_transaction (lines 112-126). -/
def commitTransaction (s : ConnState) (server : Except String Unit) :
    Except DbPoolError Unit × ConnState :=
  if s.in_transaction = false then
    (.error (.query (.executionFailed "不在事务中")), s)
  else if s.clientOpen = false then
    (.error (.query (.executionFailed "Connection closed")), s)
  else
    match server with
    | .ok () => (.ok (), { s with in_transaction := false })
    | .error msg => (.error (.query (.executionFailed msg)), s)

/-- MSSQLConnection::rollback_transaction (lines 128-142). -/
def rollbackTransaction (s : ConnState) (server : Except String Unit) :
    Except DbPoolError Unit × ConnState :=
  if s.in_transaction = false then
    (.error (.query (.executionFailed "不在事务中")), s)
  else if s.clientOpen = false then
    (.error (.query (.executionFailed "Connection closed")), s)
  else
    match server with
    | .ok () => (.ok (), { s with in_transaction := false })
    | .error msg => (.error (.query (.executionFailed msg)), s)

/-- MSSQLConnection::close (lines 155-168): when in a transaction first
attempt a rollback (`let _ =` — result ignored), then take the client
and close it on the server. The Bool of the result records whether a
rollback was attempted. -/
def closeConn (s : ConnState) (rollbackServer closeServer : Except String Unit) :
    Except DbPoolError Unit × ConnState × Bool :=
  let attempted := s.in_transaction
  let s1 := if s.in_transaction then (rollbackTransaction s rollbackServer).2 else s
  if s1.clientOpen then
    match closeServer with
    | .ok () => (.ok (), { s1 with clientOpen := false }, attempted)
    | .error msg => (.error (.query (.executionFailed msg)), { s1 with clientOpen := false }, attempted)
  else
    (.ok (), s1, attempted)

/-! ## Batch and transactional execution (src/databases/mssql/pool.rs)

Both run on one borrowed connection; `exec i` is the driver outcome of
the i-th connection.execute call on that connection (the source binds no
parameters and inspects no SQL, so the oracle is indexed by call order).
The per-op wall-clock `execution_time` of a BatchResult is an Instant
difference and is modelled as 0. -/

/-- src/core/types.rs, struct BatchOperation (parameters reduced to
their key list; the values never influence control flow here). -/
structure BatchOperation where
  sql : String
  params : Option (List String)
deriving DecidableEq, Repr

/-- src/core/types.rs, struct BatchResult. -/
structure BatchResult where
  affected_rows : Nat
  execution_time : Nat
  error : Option String
deriving DecidableEq, Repr

/-- Rendering of DbPoolError as the source does with to_string()
(thiserror display strings). -/
def DbPoolError.display : DbPoolError → String
  | .connection e =>
      "连接错误: " ++
        (match e with
         | .poolExhausted => "连接池已满"
         | .acquireTimeout => "获取连接超时"
         | .connectionFailed m => "连接失败: " ++ m
         | .connectionClosed => "连接已关闭"
         | .healthCheckFailed => "连接健康检查失败")
  | .query e =>
      "查询错误: " ++
        (match e with
         | .syntaxError m => "SQL语法错误: " ++ m
         | .executionFailed m => "查询执行失败: " ++ m
         | .timeout => "查询超时"
         | .parameterBinding m => "参数绑定错误: " ++ m
         | .resultProcessing m => "结果集处理错误: " ++ m)
  | .config e =>
      "配置错误: " ++
        (match e with
         | .parseError m => "配置解析错误: " ++ m
         | .validationFailed m => "配置验证失败: " ++ m
         | .missingRequired m => "必需配置缺失: " ++ m
         | .invalidValue m => "配置值无效: " ++ m)
  | .dataConversion m => "数据转换错误: " ++ m
  | .monitoring m => "监控错误: " ++ m
  | .runtime m => "运行时错误: " ++ m

/-- The BatchResult either arm of the loops builds from one execute
outcome. -/
def mkBatchResult (r : Except DbPoolError Nat) : BatchResult :=
  match r with
  | .ok n => { affected_rows := n, execution_time := 0, error := none }
  | .error e => { affected_rows := 0, execution_time := 0, error := some e.display }

/-- MSSQLPool::execute_batch (lines 216-245), the loop after the
connection is borrowed: one result per operation, in order, continuing
past failures. -/
def executeBatch : List BatchOperation → (Nat → Except DbPoolError Nat) → List BatchResult
  | [], _ => []
  | _ :: rest, exec => mkBatchResult (exec 0) :: executeBatch rest (fun n => exec (n + 1))

/-- The loop of MSSQLPool::execute_transaction: push results until the
first failure, which also pushes its (error) result, sets
transaction_failed and breaks. -/
def txLoop : List BatchOperation → (Nat → Except DbPoolError Nat) → List BatchResult × Bool
  | [], _ => ([], false)
  | _ :: rest, exec =>
      match exec 0 with
      | .ok n =>
          let r := txLoop rest (fun n => exec (n + 1))
          (mkBatchResult (.ok n) :: r.1, r.2)
      | .error e => ([mkBatchResult (.error e)], true)

/-- Transaction-control calls issued by execute_transaction, in order. -/
inductive TxAction where
  | beginTx
  | commitTx
  | rollbackTx
deriving DecidableEq, Repr

/-- MSSQLPool::execute_transaction (lines 247-290) on a borrowed
connection `conn`: begin, run the loop, then rollback when an operation
failed else commit (each `?`-propagated). Returns the result, the final
connection state and the transaction-control trace. -/
def executeTransaction (ops : List BatchOperation) (exec : Nat → Except DbPoolError Nat)
    (conn : ConnState) (beginSrv commitSrv rollbackSrv : Except String Unit) :
    Except DbPoolError (List BatchResult) × ConnState × List TxAction :=
  match beginTransaction conn beginSrv with
  | (.error e, c1) => (.error e, c1, [TxAction.beginTx])
  | (.ok (), c1) =>
    let r := txLoop ops exec
    if r.2 then
      match rollbackTransaction c1 rollbackSrv with
      | (.error e, c2) => (.error e, c2, [TxAction.beginTx, TxAction.rollbackTx])
      | (.ok (), c2) => (.ok r.1, c2, [TxAction.beginTx, TxAction.rollbackTx])
    else
      match commitTransaction c1 commitSrv with
      | (.error e, c2) => (.error e, c2, [TxAction.beginTx, TxAction.commitTx])
      | (.ok (), c2) => (.ok r.1, c2, [TxAction.beginTx, TxAction.commitTx])

/-- The number of operations the transactional loop executes: everything
up to and including the first failing one (formalising the truncation
the claim describes). -/
def txCut : List BatchOperation → (Nat → Except DbPoolError Nat) → Nat
  | [], _ => 0
  | _ :: rest, exec =>
      match exec 0 with
      | .ok _ => txCut rest (fun n => exec (n + 1)) + 1
      | .error _ => 1

/-- Whether some executed operation of the transactional loop failed. -/
def txFailed : List BatchOperation → (Nat → Except DbPoolError Nat) → Bool
  | [], _ => false
  | _ :: rest, exec =>
      match exec 0 with
      | .ok _ => txFailed rest (fun n => exec (n + 1))
      | .error _ => true

/-! ## Alert engine (src/utils/monitoring.rs, AlertManager) -/

/-- src/utils/monitoring.rs, enum AlertSeverity. -/
inductive AlertSeverity where
  | info
  | warning
  | critical
deriving DecidableEq, Repr

/-- src/utils/monitoring.rs, enum AlertCondition (f64 thresholds as ℚ). -/
inductive AlertCondition where
  | highErrorRate (threshold : ℚ)
  | highLatency (threshold_ms : Nat)
  | highConnectionUtilization (threshold : ℚ)
  | poolUnhealthy
  | systemUnhealthy
deriving DecidableEq, Repr

/-- src/utils/monitoring.rs, struct AlertRule. -/
structure AlertRule where
  id : String
  name : String
  condition : AlertCondition
  severity : AlertSeverity
  enabled : Bool
deriving DecidableEq, Repr

/-- src/utils/monitoring.rs, struct Alert. The rendered message and the
two Instant timestamps are not modelled; `resolved` stands for
resolved_at.is_some(). -/
structure Alert where
  id : String
  rule_id : String
  pool_id : Option String
  severity : AlertSeverity
  resolved : Bool
deriving DecidableEq, Repr

/-- The fields of PoolSummary (src/utils/monitoring.rs) that
evaluate_alerts reads, f64 values as ℚ. -/
structure PoolSummary where
  pool_id : String
  error_rate : ℚ
  p99_latency_ms : ℚ
  connection_utilization : ℚ
deriving DecidableEq, Repr

/-- The synthetic alert id: rule-id, underscore, pool-id or "system". -/
def syntheticId (rule_id : String) (pool_id : Option String) : String :=
  rule_id ++ "_" ++ pool_id.getD "system"

/-- AlertManager::trigger_alert (lines 473-511): do nothing when an
unresolved alert with the synthetic id exists, else append a fresh one. -/
def triggerAlert (alerts : List Alert) (rule : AlertRule) (pool_id : Option String) :
    List Alert :=
  let alert_id := syntheticId rule.id pool_id
  if alerts.any (fun a => a.id == alert_id && !a.resolved) then
    alerts
  else
    alerts ++ [{ id := alert_id, rule_id := rule.id, pool_id := pool_id,
                 severity := rule.severity, resolved := false }]

/-- The find-first-and-mark of AlertManager::resolve_alert (lines
513-521): resolve the first unresolved alert with the given id. -/
def resolveFirst : List Alert → String → List Alert
  | [], _ => []
  | a :: rest, alert_id =>
      if a.id == alert_id && !a.resolved then { a with resolved := true } :: rest
      else a :: resolveFirst rest alert_id

/-- AlertManager::resolve_alert. -/
def resolveAlert (alerts : List Alert) (rule_id : String) (pool_id : Option String) :
    List Alert :=
  resolveFirst alerts (syntheticId rule_id pool_id)

/-- The should_alert computation of AlertManager::evaluate_alerts (lines
452-463); PoolUnhealthy and SystemUnhealthy fall to the `_ => false` arm
as in the source. -/
def shouldAlert (condition : AlertCondition) (ps : PoolSummary) : Bool :=
  match condition with
  | .highErrorRate threshold => ps.error_rate > threshold
  | .highLatency threshold_ms => ps.p99_latency_ms > (threshold_ms : ℚ)
  | .highConnectionUtilization threshold => ps.connection_utilization > threshold
  | _ => false

/-- AlertManager::evaluate_alerts (lines 444-471): for each enabled rule
either trigger or resolve the synthetic id of (rule, pool). -/
def evaluateAlerts (rules : List AlertRule) (ps : PoolSummary) (alerts : List Alert) :
    List Alert :=
  rules.foldl
    (fun st r =>
      if r.enabled = false then st
      else if shouldAlert r.condition ps then triggerAlert st r (some ps.pool_id)
      else resolveAlert st r.id (some ps.pool_id))
    alerts

/-- Unresolved alerts carrying a given synthetic id. -/
def countUnresolved (alerts : List Alert) (alert_id : String) : Nat :=
  (alerts.filter (fun a => a.id == alert_id && !a.resolved)).length

/-- The claimed invariant: at most one unresolved alert per synthetic id. -/
def AlertInv (alerts : List Alert) : Prop :=
  ∀ alert_id : String, countUnresolved alerts alert_id ≤ 1

/-- The default rule set (AlertManager::add_default_rules). -/
def defaultRules : List AlertRule :=
  [ { id := "high_error_rate", name := "高错误率告警",
      condition := .highErrorRate (5/100), severity := .warning, enabled := true },
    { id := "high_latency", name := "高延迟告警",
      condition := .highLatency 1000, severity := .warning, enabled := true },
    { id := "high_connection_utilization", name := "高连接利用率告警",
      condition := .highConnectionUtilization (9/10), severity := .critical, enabled := true } ]

/-! ## Concrete instances used by counterexamples and witnesses -/

/-- A routine valid MSSQL configuration (mirrors the test fixture of
tests/test_pool_manager.rs). -/
def cfgP1 : DatabaseConfig :=
  { db_type := DatabaseType.MSSQL
    host := "localhost"
    port := 1433
    database := "test_db"
    username := "test_user"
    password := "test_pass"
    pool_config := { PoolConfig.default with
                     min_connections := 2, max_connections := 5, acquire_timeout := 5000 }
    ssl_config := none
    timeout_config := TimeoutConfig.default
    application_name := some "test_app" }

/-- A manager whose registry holds only the backup pool "b" (healthy),
under an active/standby policy with primary "p" and backup "b". -/
def c1State : ManagerState :=
  { local_pools := ["b"]
    pool_configs := [("b", cfgP1)]
    health := [("b", true)]
    metrics := [("b", { total_queries := 0, total_errors := 0, total_execution_time := 0 })]
    strategy := FailoverStrategy.activeStandby "p" "b" 1000 }

/-- The manager after create_pool("p1", cfgP1) succeeded and then a
connection-class query failure triggered handle_query_failure whose
recreate factory call failed: the pool entry is gone, the config entry
remains. -/
def c3State : ManagerState :=
  (handleQueryFailure
    (createPool ManagerState.empty "p1" cfgP1 (.ok ())).2
    "p1" (.connection (.connectionFailed "server down"))
    (.error (.connection (.connectionFailed "server down")))).2

/-- The manager metrics after create_pool("p1", cfgP1) and two
dispatches: one success (5 ms) and one execution-class failure (7 ms). -/
def c2Final : ManagerState :=
  runQueries (createPool ManagerState.empty "p1" cfgP1 (.ok ())).2 "p1"
    [(.ok (), 5), (.error (.query (.executionFailed "bad sql")), 7)]

/-- Session-open oracle whose first open succeeds and whose second open
fails with a connect error. -/
def createC9 : Nat → Except ConnectionError MConn :=
  fun i => if i = 0 then .ok { connId := 1, valid := true }
           else .error (.connectionFailed "connection refused")

/-- Session-open oracle that always succeeds. -/
def createOkOracle : Nat → Except ConnectionError MConn :=
  fun i => .ok { connId := i + 1, valid := true }

/-- A pool summary with a 10 percent error rate (spec scenario 5). -/
def ps0 : PoolSummary :=
  { pool_id := "p1", error_rate := 1/10, p99_latency_ms := 500,
    connection_utilization := 1/2 }

/-- Three batch operations: insert A, insert B with bad SQL, insert C
(spec scenario 6). -/
def ops3 : List BatchOperation :=
  [ { sql := "INSERT INTO t VALUES (1)", params := none },
    { sql := "INSERT INTO t VALUES (", params := none },
    { sql := "INSERT INTO t VALUES (3)", params := none } ]

/-- Driver outcomes for ops3: the second execute fails. -/
def exec3 : Nat → Except DbPoolError Nat :=
  fun i => if i = 1 then .error (.query (.syntaxError "incomplete statement")) else .ok 1

/-! # Theorems -/

/-! ## Association-map lemmas -/

theorem dmGet_remove {β : Type} (m : List (String × β)) (k x : String) :
    dmGet (dmRemove m k) x = if x = k then none else dmGet m x := by
  induction m with
  | nil => by_cases hxk : x = k <;> simp [dmRemove, dmGet, hxk]
  | cons p rest ih =>
    by_cases hpk : p.1 = k
    · rw [show dmRemove (p :: rest) k = dmRemove rest k from by simp [dmRemove, hpk]]
      rw [ih]
      by_cases hxk : x = k
      · simp [hxk]
      · have hpx : ¬ p.1 = x := fun h => hxk (h.symm.trans hpk)
        simp [hxk, dmGet, hpx]
    · rw [show dmRemove (p :: rest) k = p :: dmRemove rest k from by simp [dmRemove, hpk]]
      by_cases hpx : p.1 = x
      · have hxk : ¬ x = k := fun h => hpk (hpx.trans h)
        simp [dmGet, hpx, hxk]
      · simp [dmGet, hpx, ih]

theorem dmGet_insert {β : Type} (m : List (String × β)) (k x : String) (v : β) :
    dmGet (dmInsert m k v) x = if x = k then some v else dmGet m x := by
  unfold dmInsert
  by_cases hxk : x = k
  · subst hxk; simp [dmGet]
  · have hkx : ¬ k = x := fun h => hxk h.symm
    simp [dmGet, hkx, dmGet_remove, hxk]

theorem idsContains_remove (l : List String) (k x : String) :
    idsContains (idsRemove l k) x = true ↔ (¬ x = k ∧ idsContains l x = true) := by
  induction l with
  | nil => simp [idsRemove, idsContains]
  | cons a rest ih =>
    by_cases hak : a = k
    · rw [show idsRemove (a :: rest) k = idsRemove rest k from by simp [idsRemove, hak]]
      rw [ih]
      by_cases hxk : x = k
      · simp [hxk]
      · have hax : ¬ a = x := fun h => hxk (h.symm.trans hak)
        simp [hxk, idsContains, hax]
    · rw [show idsRemove (a :: rest) k = a :: idsRemove rest k from by simp [idsRemove, hak]]
      by_cases hax : a = x
      · have hxk : ¬ x = k := fun h => hak (hax.trans h)
        simp [idsContains, hax, hxk]
      · simp [idsContains, hax, ih]

theorem idsContains_insert (l : List String) (k x : String) :
    idsContains (idsInsert l k) x = true ↔ (x = k ∨ idsContains l x = true) := by
  unfold idsInsert
  by_cases hc : idsContains l k = true
  · rw [if_pos hc]
    constructor
    · exact Or.inr
    · rintro (rfl | h)
      · exact hc
      · exact h
  · rw [if_neg hc]
    by_cases hkx : k = x
    · subst hkx
      simp [idsContains]
    · have hxk : ¬ x = k := fun h => hkx h.symm
      simp [idsContains, hkx, hxk]

/-! ## Claim C5 -/

/-- C5 is refuted as stated: the source validation accepts a
configuration with min_connections = 0 (the spec invariant 1 ≤ min is
never checked), and rejects a file-backed (SQLite) configuration with an
empty host although the spec accepts it. -/
theorem c5_counterexample :
    validate_config cfgMinZero = .ok () ∧ ¬ specAcceptsConfig cfgMinZero ∧
    specAcceptsConfig cfgSqliteNoHost ∧ ¬ (validate_config cfgSqliteNoHost = .ok ()) := by
  refine ⟨by decide, by decide, by decide, by decide⟩

/-- C5 (amended): validation accepts exactly when the host is non-empty
(for every backend, file-backed included), the port is non-zero unless
the backend is SQLite, the database is non-empty unless the backend is
Redis, min_connections ≤ max_connections (with no lower bound on min),
and max_connections > 0; each check rejects at the first violation in
source order. -/
theorem c5_validate_config_characterization (c : DatabaseConfig) :
    validate_config c = .ok () ↔
      (c.host ≠ "" ∧
       (c.port ≠ 0 ∨ c.db_type = DatabaseType.SQLite) ∧
       (c.database ≠ "" ∨ c.db_type = DatabaseType.Redis) ∧
       c.pool_config.min_connections ≤ c.pool_config.max_connections ∧
       c.pool_config.max_connections ≠ 0) := by
  unfold validate_config
  split_ifs with h1 h2 h3 h4 h5
  · simp [h1]
  · simp only [reduceCtorEq, false_iff]
    rintro ⟨-, hport, -, -, -⟩
    rcases hport with hp | hs
    · exact hp h2.1
    · exact h2.2 hs
  · simp only [reduceCtorEq, false_iff]
    rintro ⟨-, -, hdb, -, -⟩
    rcases hdb with hd | hr
    · exact hd h3.1
    · exact h3.2 hr
  · simp only [reduceCtorEq, false_iff]
    rintro ⟨-, -, -, hle, -⟩
    omega
  · simp only [reduceCtorEq, false_iff]
    rintro ⟨-, -, -, -, hmax⟩
    exact hmax h5
  · simp only [true_iff]
    refine ⟨h1, ?_, ?_, by omega, h5⟩
    · by_cases hp : c.port = 0
      · right
        by_contra hs
        exact h2 ⟨hp, hs⟩
      · exact Or.inl hp
    · by_cases hd : c.database = ""
      · right
        by_contra hr
        exact h3 ⟨hd, hr⟩
      · exact Or.inl hd

/-! ## Claim C1 -/

/-- C1 is refuted as stated: in c1State the requested id "q" differs
from the primary "p" and is not registered, yet the dispatch is routed
to the backup "b" instead of failing. -/
theorem c1_counterexample :
    getPoolWithFallback c1State "q" = .ok "b" ∧ ¬ ("q" = "p") ∧
    idsContains c1State.local_pools "q" = false := by
  refine ⟨by decide, by decide, by decide⟩

/-- C1 (amended): under an active/standby policy, every dispatch whose
requested pool is unavailable is routed to the backup pool exactly when
the backup is registered — regardless of whether the requested id equals
the primary; when the backup is not registered the dispatch fails. -/
theorem c1_active_standby_routing (s : ManagerState) (id p b : String) (d : Nat)
    (hstrat : s.strategy = FailoverStrategy.activeStandby p b d)
    (hunavail : ¬ (idsContains s.local_pools id = true ∧ isPoolHealthy s id = true)) :
    getPoolWithFallback s id =
      if idsContains s.local_pools b then Except.ok b
      else Except.error (.runtime ("备用连接池不存在: " ++ b)) := by
  unfold getPoolWithFallback
  rw [if_neg hunavail, hstrat]

theorem c1_witness : getPoolWithFallback c1State "r" = Except.ok "b" := by
  have h := c1_active_standby_routing c1State "r" "p" "b" 1000 rfl (by decide)
  rw [h]
  decide

/-! ## Claim C3 -/

/-- C3 is refuted as stated: after create_pool("p1") succeeds and a
connection-class failure triggers a recreation whose factory call fails,
the pool registration is gone while the config registration remains. -/
theorem c3_counterexample :
    idsContains c3State.local_pools "p1" = false ∧
    (dmGet c3State.pool_configs "p1").isSome = true ∧
    ¬ Consistent c3State := by
  refine ⟨by decide, by decide, fun h => ?_⟩
  exact (by decide : ¬ idsContains c3State.local_pools "p1" = true) ((h "p1").mpr (by decide))

/-- C3 (amended): create_pool and remove_pool preserve consistency of
the pool and config registrations, and so does the failure-handling path
when its recreation factory call succeeds; only a failed recreation
breaks the invariant (as the counterexample shows). -/
theorem c3_registration_consistency :
    (∀ s id cfg f, Consistent s → Consistent (createPool s id cfg f).2) ∧
    (∀ s id cl, Consistent s → Consistent (removePool s id cl).2) ∧
    (∀ s id err, Consistent s → Consistent (handleQueryFailure s id err (.ok ())).2) := by
  refine ⟨?_, ?_, ?_⟩
  · intro s id cfg f h
    unfold createPool
    cases hv : validate_config cfg with
    | error e => exact h
    | ok u =>
      cases u
      cases f with
      | error e => exact h
      | ok u2 =>
        cases u2
        intro x
        by_cases hx : x = id
        · subst hx
          simp [idsContains_insert, dmGet_insert]
        · simp [idsContains_insert, dmGet_insert, hx, h x]
  · intro s id cl h
    unfold removePool
    dsimp only
    by_cases hc : idsContains s.local_pools id = true
    · rw [if_pos hc]
      cases cl with
      | error e =>
        intro x
        by_cases hx : x = id
        · subst hx
          simp [idsContains_remove, dmGet_remove]
        · simp [idsContains_remove, dmGet_remove, hx, h x]
      | ok u =>
        cases u
        intro x
        by_cases hx : x = id
        · subst hx
          simp [idsContains_remove, dmGet_remove]
        · simp [idsContains_remove, dmGet_remove, hx, h x]
    · rw [if_neg hc]
      exact h
  · intro s id err h
    unfold handleQueryFailure
    cases err with
    | connection e =>
      dsimp only
      cases hg : dmGet s.pool_configs id with
      | none => exact h
      | some cfg =>
        unfold recreatePool
        dsimp only
        intro x
        by_cases hx : x = id
        · subst hx
          simp [idsContains_insert, hg]
        · simp [idsContains_insert, idsContains_remove, hx, h x]
    | query e => exact h
    | config e => exact h
    | dataConversion m => exact h
    | monitoring m => exact h
    | runtime m => exact h

theorem c3_witness : Consistent (createPool ManagerState.empty "p1" cfgP1 (.ok ())).2 :=
  c3_registration_consistency.1 ManagerState.empty "p1" cfgP1 (.ok ())
    (fun id => by simp [ManagerState.empty, idsContains, dmGet])

/-! ## Claim C2 -/

/-- C2 fails on the code: after one successful query and one
execution-class failure against a freshly created pool, the metrics
report total_queries = 3 and total_errors = 2 — execute_query records
the failure once and handle_query_failure records it a second time with
Duration::ZERO — where the claim demands total_queries = 2,
total_errors = 1, error_rate = 1/2. -/
theorem c2_double_count :
    dmGet c2Final.metrics "p1" =
      some { total_queries := 3, total_errors := 2, total_execution_time := 12 } ∧
    errorRateOf { total_queries := 3, total_errors := 2, total_execution_time := 12 } = 2/3 := by
  refine ⟨by decide, ?_⟩
  norm_num [errorRateOf]

/-! ## Claim C4 -/

/-- C4 fails on the code: with the idle queue holding a dead session in
front of a live one and total_connections = max_connections = 2, borrow
pops and drops the dead session without decrementing total-live, does
not continue scanning to the live session behind it, and fails with
PoolExhausted; the final state keeps total = 2. -/
theorem c4_dead_idle_session_behavior :
    getConnection 2
      { idle := [{ connId := 1, valid := false }, { connId := 2, valid := true }], total := 2 }
      (.ok { connId := 3, valid := true }) =
      (.error .poolExhausted,
       { idle := [{ connId := 2, valid := true }], total := 2 }) := by decide

/-! ## Claim C10 -/

/-- C10 fails on the code: with min = max = 1 and the only session
borrowed (idle empty, total-live = 1), a second borrow — entered with a
free permit, since the first borrow's permit was released when
get_connection returned — fails immediately with PoolExhausted instead
of waiting for the return; no second session is opened (total stays 1). -/
theorem c10_second_borrow_fails_fast :
    getConnection 1 { idle := [], total := 1 } (.ok { connId := 2, valid := true }) =
      (.error .poolExhausted, { idle := [], total := 1 }) := by decide

/-! ## Claim C9 -/

/-- C9 is refuted as stated: with cfgP1 (min_connections = 2) and an
oracle whose second open fails, pool construction fails with the connect
error instead of treating the failed top-up as non-fatal. -/
theorem c9_counterexample :
    mssqlNew cfgP1 createC9 =
      .error (.connection (.connectionFailed "connection refused")) := by decide

theorem topUp_ok_iff (create : Nat → Except ConnectionError MConn) :
    ∀ (n k : Nat) (s : MSSQLPoolState),
      exOk (topUp create k n s) = true ↔ ∀ i, i < n → exOk (create (k + i)) = true := by
  intro n
  induction n with
  | zero =>
    intro k s
    simp [topUp, exOk]
  | succ m ih =>
    intro k s
    cases hc : create k with
    | ok c =>
      have hstep : topUp create k (m + 1) s =
          topUp create (k + 1) m { idle := s.idle ++ [c], total := s.total + 1 } := by
        simp [topUp, hc]
      rw [hstep, ih]
      constructor
      · intro h i hi
        cases i with
        | zero => simp [hc, exOk]
        | succ j =>
          have hj := h j (by omega)
          have harith : k + 1 + j = k + (j + 1) := by omega
          rwa [harith] at hj
      · intro h i hi
        have hj := h (i + 1) (by omega)
        have harith : k + (i + 1) = k + 1 + i := by omega
        rwa [harith] at hj
    | error e =>
      have hstep : topUp create k (m + 1) s = .error (.connection e) := by
        simp [topUp, hc]
      rw [hstep]
      constructor
      · intro hf
        simp [exOk] at hf
      · intro hall
        have h0 := hall 0 (by omega)
        rw [Nat.add_zero, hc] at h0
        simp [exOk] at h0

/-- C9 (amended): the min top-up is not best-effort — pool construction
succeeds exactly when validation passes and all of the first
min_connections session opens succeed, so a single failed open during
the initial top-up makes construction (and hence create_pool) fail. -/
theorem c9_new_succeeds_iff (config : DatabaseConfig)
    (create : Nat → Except ConnectionError MConn) :
    exOk (mssqlNew config create) = true ↔
      (exOk (mssql_validate_config config) = true ∧
       ∀ i, i < config.pool_config.min_connections → exOk (create i) = true) := by
  unfold mssqlNew
  cases hv : mssql_validate_config config with
  | error e => simp [exOk]
  | ok u =>
    cases u
    unfold ensureMinConnections
    dsimp only
    by_cases hmin : ([] : List MConn).length < config.pool_config.min_connections
    · rw [if_pos hmin, topUp_ok_iff]
      simp [exOk]
    · rw [if_neg hmin]
      have hz : config.pool_config.min_connections = 0 := by
        simpa using hmin
      simp [exOk, hz]

theorem c9_witness : exOk (mssqlNew cfgP1 createOkOracle) = true :=
  (c9_new_succeeds_iff cfgP1 createOkOracle).mpr
    ⟨by decide, fun i hi => by simp [createOkOracle, exOk]⟩

/-! ## Claim C6 -/

theorem countUnresolved_cons (a : Alert) (rest : List Alert) (alert_id : String) :
    countUnresolved (a :: rest) alert_id =
      (if a.id == alert_id && !a.resolved then 1 else 0) + countUnresolved rest alert_id := by
  by_cases hp : (a.id == alert_id && !a.resolved) = true
  · simp [countUnresolved, List.filter_cons, hp, Nat.add_comm]
  · simp [countUnresolved, List.filter_cons, hp]

theorem countUnresolved_append (s t : List Alert) (alert_id : String) :
    countUnresolved (s ++ t) alert_id = countUnresolved s alert_id + countUnresolved t alert_id := by
  simp [countUnresolved, List.filter_append]

theorem countUnresolved_zero_of_any_false (s : List Alert) (alert_id : String)
    (h : s.any (fun a => a.id == alert_id && !a.resolved) = false) :
    countUnresolved s alert_id = 0 := by
  induction s with
  | nil => simp [countUnresolved]
  | cons a rest ih =>
    rw [List.any_cons, Bool.or_eq_false_iff] at h
    rw [countUnresolved_cons, h.1]
    simpa using ih h.2

theorem AlertInv_trigger (s : List Alert) (rule : AlertRule) (pid : Option String)
    (h : AlertInv s) : AlertInv (triggerAlert s rule pid) := by
  unfold triggerAlert
  dsimp only
  by_cases hc : s.any (fun a => a.id == syntheticId rule.id pid && !a.resolved) = true
  · rw [if_pos hc]
    exact h
  · rw [if_neg hc]
    intro alert_id
    rw [countUnresolved_append]
    by_cases heq : syntheticId rule.id pid = alert_id
    · have hz : countUnresolved s alert_id = 0 := by
        apply countUnresolved_zero_of_any_false
        rw [heq] at hc
        exact Bool.not_eq_true _ ▸ Bool.eq_false_iff.mpr (fun ht => hc ht)
      rw [hz]
      simp [countUnresolved_cons, countUnresolved, heq]
    · have hone : countUnresolved
          [{ id := syntheticId rule.id pid, rule_id := rule.id, pool_id := pid,
             severity := rule.severity, resolved := false }] alert_id = 0 := by
        simp [countUnresolved_cons, countUnresolved, heq]
      rw [hone]
      simpa using h alert_id

theorem countUnresolved_resolveFirst_le (s : List Alert) (aid aid' : String) :
    countUnresolved (resolveFirst s aid) aid' ≤ countUnresolved s aid' := by
  induction s with
  | nil => simp [resolveFirst]
  | cons a rest ih =>
    unfold resolveFirst
    by_cases hp : (a.id == aid && !a.resolved) = true
    · rw [if_pos hp, countUnresolved_cons, countUnresolved_cons]
      simp only [Bool.and_false, Bool.not_true]
      simp
    · rw [if_neg hp, countUnresolved_cons, countUnresolved_cons]
      have hle := ih
      omega

theorem resolveFirst_eq_of_count_zero (s : List Alert) (aid : String)
    (h : countUnresolved s aid = 0) : resolveFirst s aid = s := by
  induction s with
  | nil => rfl
  | cons a rest ih =>
    rw [countUnresolved_cons] at h
    by_cases hp : (a.id == aid && !a.resolved) = true
    · rw [if_pos hp] at h
      omega
    · rw [if_neg hp] at h
      unfold resolveFirst
      rw [if_neg hp, ih (by omega)]

theorem countUnresolved_resolveFirst_self (s : List Alert) (aid : String)
    (h : countUnresolved s aid ≤ 1) :
    countUnresolved (resolveFirst s aid) aid = 0 := by
  induction s with
  | nil => simp [resolveFirst, countUnresolved]
  | cons a rest ih =>
    rw [countUnresolved_cons] at h
    unfold resolveFirst
    by_cases hp : (a.id == aid && !a.resolved) = true
    · rw [if_pos hp] at h
      rw [if_pos hp, countUnresolved_cons]
      simp only [Bool.and_false, Bool.not_true]
      simp only [if_neg (by simp : ¬ (false = true)), Nat.zero_add]
      omega
    · rw [if_neg hp] at h
      rw [if_neg hp, countUnresolved_cons, if_neg hp]
      have := ih (by omega)
      omega

theorem AlertInv_resolveFirst (s : List Alert) (aid : String) (h : AlertInv s) :
    AlertInv (resolveFirst s aid) :=
  fun aid' => le_trans (countUnresolved_resolveFirst_le s aid aid') (h aid')

theorem AlertInv_evaluate (rules : List AlertRule) (ps : PoolSummary) :
    ∀ s, AlertInv s → AlertInv (evaluateAlerts rules ps s) := by
  induction rules with
  | nil =>
    intro s h
    exact h
  | cons r rest ih =>
    intro s h
    show AlertInv (List.foldl _ _ (r :: rest))
    rw [List.foldl_cons]
    refine ih _ ?_
    by_cases he : r.enabled = false
    · rw [if_pos he]
      exact h
    · rw [if_neg he]
      by_cases hs : shouldAlert r.condition ps = true
      · rw [if_pos hs]
        exact AlertInv_trigger _ _ _ h
      · rw [if_neg hs]
        exact AlertInv_resolveFirst _ _ h

/-- C6: at every instant there is at most one unresolved alert per
synthetic id — the invariant holds initially and is preserved by every
sequence of evaluate_alerts calls — and repeated evaluations are
idempotent at the operation level: a second trigger of the same (rule,
pool) inserts nothing, and, under the invariant, a second resolve of the
same (rule, pool) resolves nothing further. -/
theorem c6_alert_uniqueness_and_idempotence :
    AlertInv [] ∧
    (∀ (summaries : List PoolSummary) (rules : List AlertRule),
       AlertInv (summaries.foldl (fun st ps => evaluateAlerts rules ps st) [])) ∧
    (∀ (s : List Alert) (rule : AlertRule) (pid : Option String),
       triggerAlert (triggerAlert s rule pid) rule pid = triggerAlert s rule pid) ∧
    (∀ (s : List Alert) (rule_id : String) (pid : Option String), AlertInv s →
       resolveAlert (resolveAlert s rule_id pid) rule_id pid = resolveAlert s rule_id pid) := by
  have hempty : AlertInv [] := fun aid => by simp [countUnresolved]
  have hrun : ∀ (rules : List AlertRule) (summaries : List PoolSummary) (s : List Alert),
      AlertInv s → AlertInv (summaries.foldl (fun st ps => evaluateAlerts rules ps st) s) := by
    intro rules summaries
    induction summaries with
    | nil => intro s h; exact h
    | cons ps rest ih =>
      intro s h
      rw [List.foldl_cons]
      exact ih _ (AlertInv_evaluate rules ps s h)
  refine ⟨hempty, fun summaries rules => hrun rules summaries [] hempty, ?_, ?_⟩
  · intro s rule pid
    unfold triggerAlert
    dsimp only
    by_cases hc : s.any (fun a => a.id == syntheticId rule.id pid && !a.resolved) = true
    · rw [if_pos hc, if_pos hc]
    · rw [if_neg hc]
      rw [if_pos (by simp [List.any_append])]
  · intro s rule_id pid h
    unfold resolveAlert
    exact resolveFirst_eq_of_count_zero _ _
      (countUnresolved_resolveFirst_self s (syntheticId rule_id pid) (h _))

theorem c6_witness :
    resolveAlert (resolveAlert [] "high_error_rate" (some "p1")) "high_error_rate" (some "p1") =
      resolveAlert [] "high_error_rate" (some "p1") :=
  c6_alert_uniqueness_and_idempotence.2.2.2 [] "high_error_rate" (some "p1")
    (fun aid => by simp [countUnresolved])

/-! ## Claim C7 -/

theorem executeBatch_length (ops : List BatchOperation) (exec : Nat → Except DbPoolError Nat) :
    (executeBatch ops exec).length = ops.length := by
  induction ops generalizing exec with
  | nil => rfl
  | cons op rest ih => simp [executeBatch, ih]

theorem executeBatch_get (ops : List BatchOperation) (exec : Nat → Except DbPoolError Nat) :
    ∀ i, i < ops.length → (executeBatch ops exec)[i]? = some (mkBatchResult (exec i)) := by
  induction ops generalizing exec with
  | nil =>
    intro i hi
    simp at hi
  | cons op rest ih =>
    intro i hi
    cases i with
    | zero => simp [executeBatch]
    | succ j =>
      rw [show executeBatch (op :: rest) exec =
        mkBatchResult (exec 0) :: executeBatch rest (fun n => exec (n + 1)) from rfl]
      rw [List.getElem?_cons_succ]
      exact ih (fun n => exec (n + 1)) j (by simpa using hi)

theorem txLoop_spec (ops : List BatchOperation) (exec : Nat → Except DbPoolError Nat) :
    txLoop ops exec = (executeBatch (ops.take (txCut ops exec)) exec, txFailed ops exec) := by
  induction ops generalizing exec with
  | nil => rfl
  | cons op rest ih =>
    cases hc : exec 0 with
    | ok n =>
      simp [txLoop, txCut, txFailed, hc, List.take_succ_cons, executeBatch, ih]
    | error e =>
      simp [txLoop, txCut, txFailed, hc, executeBatch]

/-- C7: execute_batch returns exactly one result per operation, in
submission order, continuing past failed entries; execute_transaction
(on an idle open connection whose transaction-control commands succeed)
returns exactly the results of the prefix of ops up to and including the
first failing operation — no entries for un-executed operations — and
issues a rollback when an operation failed, a commit when all
succeeded. -/
theorem c7_batch_and_transaction_semantics (ops : List BatchOperation)
    (exec : Nat → Except DbPoolError Nat) (conn : ConnState)
    (hidle : conn.in_transaction = false) (hopen : conn.clientOpen = true) :
    ((executeBatch ops exec).length = ops.length ∧
     ∀ i, i < ops.length → (executeBatch ops exec)[i]? = some (mkBatchResult (exec i))) ∧
    executeTransaction ops exec conn (.ok ()) (.ok ()) (.ok ()) =
      (.ok (executeBatch (ops.take (txCut ops exec)) exec),
       { conn with in_transaction := false },
       [TxAction.beginTx,
        if txFailed ops exec then TxAction.rollbackTx else TxAction.commitTx]) := by
  refine ⟨⟨executeBatch_length ops exec, executeBatch_get ops exec⟩, ?_⟩
  have hbegin : beginTransaction conn (.ok ()) = (.ok (), { conn with in_transaction := true }) := by
    simp [beginTransaction, hidle, hopen]
  have hroll : rollbackTransaction { conn with in_transaction := true } (.ok ()) =
      (.ok (), { conn with in_transaction := false }) := by
    simp [rollbackTransaction, hopen]
  have hcommit : commitTransaction { conn with in_transaction := true } (.ok ()) =
      (.ok (), { conn with in_transaction := false }) := by
    simp [commitTransaction, hopen]
  unfold executeTransaction
  rw [hbegin]
  dsimp only
  rw [txLoop_spec]
  by_cases hf : txFailed ops exec = true
  · rw [if_pos hf]
    dsimp only
    rw [if_pos hf, hroll]
  · rw [if_neg hf]
    dsimp only
    rw [if_neg hf, hcommit]

theorem c7_witness :
    executeTransaction ops3 exec3 { clientOpen := true, in_transaction := false }
      (.ok ()) (.ok ()) (.ok ()) =
      (.ok [ { affected_rows := 1, execution_time := 0, error := none },
             { affected_rows := 0, execution_time := 0,
               error := some "查询错误: SQL语法错误: incomplete statement" } ],
       { clientOpen := true, in_transaction := false },
       [TxAction.beginTx, TxAction.rollbackTx]) := by
  have h := (c7_batch_and_transaction_semantics ops3 exec3
      { clientOpen := true, in_transaction := false } rfl rfl).2
  rw [h]
  decide

/-! ## Claim C8 -/

/-- C8: per session the adapter enforces the {Idle, InTx} machine:
begin succeeds only from Idle and moves to InTx; a nested begin fails
with an execution-class error leaving the state unchanged; commit and
rollback succeed only from InTx and move to Idle, failing from Idle with
an execution-class error; close attempts a rollback exactly when the
session is InTx, and from InTx rolls back before closing. -/
theorem c8_transaction_state_machine :
    (∀ s : ConnState, s.in_transaction = false → s.clientOpen = true →
       beginTransaction s (.ok ()) = (.ok (), { s with in_transaction := true })) ∧
    (∀ (s : ConnState) (srv : Except String Unit), s.in_transaction = true →
       beginTransaction s srv = (.error (.query (.executionFailed "已在事务中")), s)) ∧
    (∀ s : ConnState, s.in_transaction = true → s.clientOpen = true →
       commitTransaction s (.ok ()) = (.ok (), { s with in_transaction := false })) ∧
    (∀ (s : ConnState) (srv : Except String Unit), s.in_transaction = false →
       commitTransaction s srv = (.error (.query (.executionFailed "不在事务中")), s)) ∧
    (∀ s : ConnState, s.in_transaction = true → s.clientOpen = true →
       rollbackTransaction s (.ok ()) = (.ok (), { s with in_transaction := false })) ∧
    (∀ (s : ConnState) (srv : Except String Unit), s.in_transaction = false →
       rollbackTransaction s srv = (.error (.query (.executionFailed "不在事务中")), s)) ∧
    (∀ (s : ConnState) (rs cs : Except String Unit),
       (closeConn s rs cs).2.2 = s.in_transaction) ∧
    (∀ s : ConnState, s.in_transaction = true → s.clientOpen = true →
       closeConn s (.ok ()) (.ok ()) =
         (.ok (), { clientOpen := false, in_transaction := false }, true)) := by
  refine ⟨?_, ?_, ?_, ?_, ?_, ?_, ?_, ?_⟩
  · intro s h1 h2
    simp [beginTransaction, h1, h2]
  · intro s srv h1
    simp [beginTransaction, h1]
  · intro s h1 h2
    simp [commitTransaction, h1, h2]
  · intro s srv h1
    simp [commitTransaction, h1]
  · intro s h1 h2
    simp [rollbackTransaction, h1, h2]
  · intro s srv h1
    simp [rollbackTransaction, h1]
  · intro s rs cs
    simp only [closeConn]
    cases cs <;> split_ifs <;> rfl
  · intro s h1 h2
    simp [closeConn, rollbackTransaction, h1, h2]

theorem c8_witness :
    beginTransaction { clientOpen := true, in_transaction := false } (.ok ()) =
      (.ok (), { clientOpen := true, in_transaction := true }) ∧
    beginTransaction { clientOpen := true, in_transaction := true } (.ok ()) =
      (.error (.query (.executionFailed "已在事务中")),
       { clientOpen := true, in_transaction := true }) ∧
    closeConn { clientOpen := true, in_transaction := true } (.ok ()) (.ok ()) =
      (.ok (), { clientOpen := false, in_transaction := false }, true) :=
  ⟨c8_transaction_state_machine.1 { clientOpen := true, in_transaction := false } rfl rfl,
   c8_transaction_state_machine.2.1 { clientOpen := true, in_transaction := true } (.ok ()) rfl,
   c8_transaction_state_machine.2.2.2.2.2.2.2
     { clientOpen := true, in_transaction := true } rfl rfl⟩

end DbPool

